import Mathlib

/-!
Shallow embedding of the VRDriverForDesktop repository
(src/Driver/src/driver.cpp and src/ClientApp/src/client.cpp).

C++ `double` values are modelled as real numbers.  Stateful code is
modelled by explicit state passing: the mutable members of
`CForDesktopControllerDriver`, `CForDesktopDeviceDriver` and
`CServerDriver_ForDesktop` become structures, and each code region that
mutates them becomes a function from state to state.  The shared-memory
buffer is modelled as a list of characters.  The third-party JSON parser
(picojson) is external to the repository; the parse outcome is passed to
the frame step as a value of type `Except String JValue`.
-/

namespace VRDesktop

/-- JSON values, as produced by the external picojson parser. -/
inductive JValue where
  | jnull : JValue
  | jbool : Bool → JValue
  | jnum : ℝ → JValue
  | jstr : String → JValue
  | jarr : List JValue → JValue
  | jobj : List (String × JValue) → JValue

/-- Field lookup in a JSON object field list. -/
def jLookup (fs : List (String × JValue)) (key : String) : Option JValue :=
  (fs.find? (fun p => p.1 == key)).map (fun p => p.2)

/-- Modelled from the spec: `GetDoubleValue` (declared in the repository
header ShareMem.h, which is not under src/).  Per the spec, every JSON
field is independently optional and "a missing numeric field defaults to
`0.0`"; the driver presets the output variable before the call, so the
getter returns the preset when the field is absent or non-numeric. -/
def GetDoubleValue (preset : ℝ) (j : JValue) (key : String) : ℝ :=
  match j with
  | .jobj fs =>
    match jLookup fs key with
    | some (.jnum v) => v
    | _ => preset
  | _ => preset

/-- Modelled from the spec: `GetBoolValue` (ShareMem.h, not under src/).
Per the spec, "a missing boolean defaults to `false`" (the preset). -/
def GetBoolValue (preset : Bool) (j : JValue) (key : String) : Bool :=
  match j with
  | .jobj fs =>
    match jLookup fs key with
    | some (.jbool b) => b
    | _ => preset
  | _ => preset

/-- Numeric element `i` of a JSON array, falling back to the preset. -/
def jnumAt (xs : List JValue) (i : Nat) (preset : ℝ) : ℝ :=
  match xs.get? i with
  | some (.jnum v) => v
  | _ => preset

/-- Modelled from the spec: `GetDoubleArry` for 3-element arrays
(ShareMem.h, not under src/).  Each element is independently optional,
defaulting to the preset (`0.0` at every call site in driver.cpp). -/
def GetDoubleArry3 (preset : ℝ × ℝ × ℝ) (j : JValue) (key : String) :
    ℝ × ℝ × ℝ :=
  match j with
  | .jobj fs =>
    match jLookup fs key with
    | some (.jarr xs) =>
      (jnumAt xs 0 preset.1, jnumAt xs 1 preset.2.1, jnumAt xs 2 preset.2.2)
    | _ => preset
  | _ => preset

/-- Modelled from the spec: `GetDoubleArry` for 2-element arrays
(ShareMem.h, not under src/). -/
def GetDoubleArry2 (preset : ℝ × ℝ) (j : JValue) (key : String) : ℝ × ℝ :=
  match j with
  | .jobj fs =>
    match jLookup fs key with
    | some (.jarr xs) => (jnumAt xs 0 preset.1, jnumAt xs 1 preset.2)
    | _ => preset
  | _ => preset

/-- Truncation toward zero, as used by the C `fmod` specification. -/
noncomputable def ctrunc (x : ℝ) : ℤ :=
  if 0 ≤ x then ⌊x⌋ else ⌈x⌉

/-- C `fmod x y = x - trunc (x / y) * y`: the remainder carries the sign
of the dividend `x` (truncated-division remainder). -/
noncomputable def cfmod (x y : ℝ) : ℝ :=
  x - (ctrunc (x / y) : ℝ) * y

/-- driver.cpp lines 831-836: the per-axis rotation delta
`fmod(current - previous, 90.0) / 360.0`. -/
noncomputable def rotDelta (current previous : ℝ) : ℝ :=
  cfmod (current - previous) 90 / 360

/-- Mutable state of one `CForDesktopControllerDriver`
(driver.cpp lines 713-721). -/
structure CtrlState where
  controller_roll : ℝ
  controller_pitch : ℝ
  controller_yaw : ℝ
  posCorrectionValues : ℝ × ℝ × ℝ
  rawPosValues : ℝ × ℝ × ℝ
  rotDiffValues : ℝ × ℝ × ℝ
  trackpadValues : ℝ × ℝ
  trackpadClicked : Bool
  triggerValue : ℝ

/-- In-class initializers of the controller fields
(driver.cpp lines 713-721: everything zero / false). -/
def ctrlStateInit : CtrlState :=
  { controller_roll := 0, controller_pitch := 0, controller_yaw := 0
    posCorrectionValues := (0, 0, 0), rawPosValues := (0, 0, 0)
    rotDiffValues := (0, 0, 0), trackpadValues := (0, 0)
    trackpadClicked := false, triggerValue := 0 }

/-- Method `CForDesktopControllerDriver::setInputValues`
(driver.cpp lines 691-703). -/
def setInputValues (c : CtrlState) (pos rot : ℝ × ℝ × ℝ) (tpv : ℝ × ℝ)
    (tpc : Bool) (trig : ℝ) : CtrlState :=
  { c with rawPosValues := pos, rotDiffValues := rot, trackpadValues := tpv
           trackpadClicked := tpc, triggerValue := trig }

/-- Method `CForDesktopControllerDriver::setRotDiffNone`
(driver.cpp lines 705-707). -/
def setRotDiffNone (c : CtrlState) : CtrlState :=
  { c with rotDiffValues := (0, 0, 0) }

/-- Mutable state of one `CForDesktopDeviceDriver` (the head HMD),
driver.cpp line 444.  `x`, `y`, `z` and `frontDire` have no in-class
initializer in the source, so the initial state below takes them as
parameters. -/
structure HeadState where
  head_yaw : ℝ
  head_pitch : ℝ
  head_roll : ℝ
  x : ℝ
  y : ℝ
  z : ℝ
  frontDire : ℝ

/-- Initial head state: `head_yaw = head_pitch = head_roll = 0`
(driver.cpp line 444); the remaining members are indeterminate. -/
def headStateInit (x0 y0 z0 f0 : ℝ) : HeadState :=
  { head_yaw := 0, head_pitch := 0, head_roll := 0
    x := x0, y := y0, z := z0, frontDire := f0 }

/-- Raw inputs sampled during one frame tick: the pointer-lock state and
cursor position read by the head's `GetPose`, the screen metrics, and the
keyboard keys polled by `GetAsyncKeyState` in both `GetPose` bodies. -/
structure FrameInputs where
  mouseIsLocked : Bool
  px : ℝ
  py : ℝ
  screenW : ℝ
  screenH : ℝ
  endKey : Bool
  upKey : Bool
  downKey : Bool
  leftKey : Bool
  rightKey : Bool
  priorKey : Bool
  nextKey : Bool
  homeKey : Bool

/-- A tick with no key pressed, pointer lock off, cursor at origin. -/
def quietInputs : FrameInputs :=
  { mouseIsLocked := false, px := 0, py := 0, screenW := 0, screenH := 0
    endKey := false, upKey := false, downKey := false, leftKey := false
    rightKey := false, priorKey := false, nextKey := false, homeKey := false }

/-- driver.cpp lines 361-366: pointer integration into pitch/roll while
the pointer-lock latch is engaged. -/
noncomputable def headMouseUpd (inp : FrameInputs) (s : HeadState) :
    HeadState :=
  if inp.mouseIsLocked then
    { s with head_pitch := s.head_pitch + (inp.screenW / 2 - inp.px) * 0.01
             head_roll := s.head_roll + (inp.screenH / 2 - inp.py) * 0.01 }
  else s

/-- driver.cpp lines 368-373: the END key zeroes `head_yaw` and
snapshots the front direction from the current pitch. -/
def headEndUpd (inp : FrameInputs) (s : HeadState) : HeadState :=
  if inp.endKey then { s with head_yaw := 0, frontDire := s.head_pitch }
  else s

/-- driver.cpp lines 375-394: `cos_pitch`/`sin_pitch` are computed once
from the current pitch, then the four arrow keys step the horizontal
position. -/
noncomputable def headMoveUpd (inp : FrameInputs) (s : HeadState) :
    HeadState :=
  let cos_pitch := Real.cos s.head_pitch
  let sin_pitch := Real.sin s.head_pitch
  let s1 :=
    if inp.upKey then
      { s with z := s.z + -0.01 * cos_pitch, x := s.x + -0.01 * sin_pitch }
    else s
  let s2 :=
    if inp.downKey then
      { s1 with z := s1.z + 0.01 * cos_pitch, x := s1.x + 0.01 * sin_pitch }
    else s1
  let s3 :=
    if inp.leftKey then
      { s2 with x := s2.x + -0.01 * cos_pitch, z := s2.z - -0.01 * sin_pitch }
    else s2
  if inp.rightKey then
    { s3 with x := s3.x + 0.01 * cos_pitch, z := s3.z - 0.01 * sin_pitch }
  else s3

/-- driver.cpp lines 396-401: PRIOR/NEXT step the vertical position. -/
def headVertUpd (inp : FrameInputs) (s : HeadState) : HeadState :=
  let s1 := if inp.priorKey then { s with y := s.y + 0.01 } else s
  if inp.nextKey then { s1 with y := s1.y + -0.01 } else s1

/-- driver.cpp lines 403-407: the HOME key zeroes the position. -/
def headHomeUpd (inp : FrameInputs) (s : HeadState) : HeadState :=
  if inp.homeKey then { s with x := 0, y := 0, z := 0 } else s

/-- State mutation performed by `CForDesktopDeviceDriver::GetPose`
(driver.cpp lines 358-407), in source order: pointer integration while
the mouse is locked (364-365), the END-key yaw reset and front-direction
snapshot (368-373), arrow-key horizontal movement rotated by the current
pitch (378-394), PRIOR/NEXT vertical movement (396-401) and the HOME-key
position reset (403-407). -/
noncomputable def headGetPoseStep (inp : FrameInputs) (s : HeadState) :
    HeadState :=
  headHomeUpd inp (headVertUpd inp (headMoveUpd inp (headEndUpd inp
    (headMouseUpd inp s))))

/-- Head states reachable from some initial state by any sequence of
frame ticks (any inputs each tick). -/
inductive HeadReachable : HeadState → Prop where
  | init (x0 y0 z0 f0 : ℝ) : HeadReachable (headStateInit x0 y0 z0 f0)
  | step (inp : FrameInputs) (s : HeadState) :
      HeadReachable s → HeadReachable (headGetPoseStep inp s)

/-- State mutation performed by `CForDesktopControllerDriver::GetPose`
(driver.cpp lines 602-625), in source order: the HOME-key calibration
(604-608: snapshot the raw position as the correction offset, zero roll
and yaw, set pitch to the head front direction), the END-key angle-only
calibration (609-612), then the accumulation of the stored rotation
deltas (623-625). -/
def ctrlGetPoseStep (inp : FrameInputs) (head_front : ℝ) (c : CtrlState) :
    CtrlState :=
  let c :=
    if inp.homeKey then
      { c with posCorrectionValues := c.rawPosValues, controller_roll := 0
               controller_yaw := 0, controller_pitch := head_front }
    else c
  let c :=
    if inp.endKey then
      { c with controller_roll := 0, controller_yaw := 0
               controller_pitch := head_front }
    else c
  { c with controller_roll := c.controller_roll + c.rotDiffValues.1
           controller_pitch := c.controller_pitch + c.rotDiffValues.2.1
           controller_yaw := c.controller_yaw + c.rotDiffValues.2.2 }

/-- Mutable state owned by `CServerDriver_ForDesktop` that the per-frame
code touches: the head object, the two controller objects, and the single
`preControllerRot[3]` array (driver.cpp lines 759-763). -/
structure ServerState where
  head : HeadState
  ctrl_r : CtrlState
  ctrl_l : CtrlState
  preControllerRot : ℝ × ℝ × ℝ

/-- Server state right after a (hypothetically successful) Init, with the
head's indeterminate members taken to be zero. -/
def serverStateInit : ServerState :=
  { head := headStateInit 0 0 0 0, ctrl_r := ctrlStateInit
    ctrl_l := ctrlStateInit, preControllerRot := (0, 0, 0) }

/-- JSON key read at driver.cpp line 817. -/
def keyId : String := "id"

/-- JSON key read at driver.cpp line 825. -/
def keyTrackpad : String := "trackpad"

/-- JSON key read at driver.cpp line 826. -/
def keyClicked : String := "clicked"

/-- JSON key read at driver.cpp line 827. -/
def keyTranslation : String := "translation"

/-- JSON key read at driver.cpp line 828. -/
def keyRotation : String := "rotation"

/-- JSON key read at driver.cpp line 829. -/
def keyTrigger : String := "trigger"

/-- The diagnostic line emitted at driver.cpp line 814:
`DriverLog("json error: %s\n", err.c_str())`. -/
def jsonErrorLog (e : String) : String :=
  "json error: " ++ e ++ "\n"

/-- The telemetry-decoding body of `CServerDriver_ForDesktop::RunFrame`
executed when the parse succeeded (driver.cpp lines 816-849): extract the
fields, compute the per-axis deltas from the shared `preControllerRot`,
overwrite `preControllerRot` with the new absolute sample (837, before
the id dispatch), then dispatch on exact equality of `id` with 0.0 and
1.0, clearing the other controller's deltas. -/
noncomputable def serverDecodeStep (j : JValue) (s : ServerState) :
    ServerState :=
  let controllerid := GetDoubleValue 0 j keyId
  let trackpadValues := GetDoubleArry2 (0, 0) j keyTrackpad
  let trackpadClicked := GetBoolValue false j keyClicked
  let controllerPos := GetDoubleArry3 (0, 0, 0) j keyTranslation
  let controllerRot := GetDoubleArry3 (0, 0, 0) j keyRotation
  let triggerValue := GetDoubleValue 0 j keyTrigger
  let controllerRotDiff : ℝ × ℝ × ℝ :=
    (rotDelta controllerRot.1 s.preControllerRot.1,
     rotDelta controllerRot.2.1 s.preControllerRot.2.1,
     rotDelta controllerRot.2.2 s.preControllerRot.2.2)
  let s := { s with preControllerRot := controllerRot }
  if controllerid = 0 then
    { s with
      ctrl_r := setInputValues s.ctrl_r controllerPos controllerRotDiff
        trackpadValues trackpadClicked triggerValue
      ctrl_l := setRotDiffNone s.ctrl_l }
  else if controllerid = 1 then
    { s with
      ctrl_l := setInputValues s.ctrl_l controllerPos controllerRotDiff
        trackpadValues trackpadClicked triggerValue
      ctrl_r := setRotDiffNone s.ctrl_r }
  else s

/-- The telemetry-ingestion phase of `RunFrame` (driver.cpp lines
806-851).  `payload = none` models a tick on which the shared channel is
drained (`SharedRam[0] == 'x'`, so `shramhasdata` is false); otherwise
the payload's parse outcome from the external picojson parser is given.
Returns the new state together with the log lines emitted (driver.cpp
line 814). -/
noncomputable def serverIngest (payload : Option (Except String JValue))
    (s : ServerState) : ServerState × List String :=
  match payload with
  | none => (s, [])
  | some (.error e) => (s, [jsonErrorLog e])
  | some (.ok j) => (serverDecodeStep j s, [])

/-- One full frame tick of `CServerDriver_ForDesktop::RunFrame` as far as
device state is concerned (driver.cpp lines 805-861): the telemetry
ingestion, then the head's frame (853-855, whose `GetPose` runs first and
updates `frontDire`), then the right controller's frame (856-858) and the
left controller's frame (859-861), each of whose `GetPose` reads the
head's `frontDire` through its `head` pointer. -/
noncomputable def serverRunFrameTick (payload : Option (Except String JValue))
    (inp : FrameInputs) (s : ServerState) : ServerState × List String :=
  let (s1, logs) := serverIngest payload s
  let h2 := headGetPoseStep inp s1.head
  let r2 := ctrlGetPoseStep inp h2.frontDire s1.ctrl_r
  let l2 := ctrlGetPoseStep inp h2.frontDire s1.ctrl_l
  ({ head := h2, ctrl_r := r2, ctrl_l := l2
     preControllerRot := s1.preControllerRot }, logs)

/-- The NUL byte terminating C strings in the shared buffer. -/
def nulChar : Char := Char.ofNat 0

/-- driver.cpp line 807: `bool shramhasdata = (SharedRam[0] != 'x')` —
the consumer sees data exactly when the byte at offset 0 differs
from `'x'`.  The shared buffer is modelled as its character contents. -/
def shramHasData (buf : List Char) : Bool :=
  buf.headD nulChar != 'x'

/-- driver.cpp line 810: `std::string json = SharedRam` — the payload
handed to the parser is the C string starting at offset 0 of the buffer,
up to the first NUL. -/
def payloadCString (buf : List Char) : List Char :=
  buf.takeWhile (fun c => c != nulChar)

/-- Reading of the payload as the claim words it: a JSON payload
occupying bytes 1 and onward, copied/parsed starting at offset >= 1. -/
def payloadCStringClaim (buf : List Char) : List Char :=
  (buf.drop 1).takeWhile (fun c => c != nulChar)

/-- driver.cpp lines 863-867: after the devices have run, a tick that
had data writes `'\0'` to offset 1 and then `'x'` to offset 0, marking
the channel drained. -/
def markDrained (buf : List Char) : List Char :=
  ((buf.set 1 nulChar).set 0 'x')

/-- client.cpp line 136: the producer copies a new record into the
buffer only when it observes `'x'` at offset 0. -/
def producerMayWrite (buf : List Char) : Bool :=
  buf.headD nulChar == 'x'

/-- State of one edge-triggered input latch: the toggled output and the
"signal was active on the previous poll" memory.  The pointer-lock
instance is the global pair `mouseIsLocked` / `mouseMidOnIsContinuing`
(driver.cpp lines 136-137) and the tracking-lock instance is
`rCtrlIsLocked` / `rCtrlOnIsCOntinuing` (lines 139-140). -/
structure Latch where
  locked : Bool
  continuing : Bool

/-- One poll of a latch, driver.cpp lines 880-884 (and identically lines
892-896): `if (on && !continuing) locked = !locked; continuing = on`. -/
def latchUpdate (s : Latch) (raw : Bool) : Latch :=
  { locked := if raw && !s.continuing then !s.locked else s.locked
    continuing := raw }

/-- A sequence of polls, applied left to right. -/
def latchRun (s : Latch) (polls : List Bool) : Latch :=
  polls.foldl latchUpdate s

/-- Number of rising edges in a poll sequence, given whether the signal
was active on the poll just before the sequence. -/
def risingEdges (cont : Bool) : List Bool → Nat
  | [] => 0
  | r :: rs => (if r && !cont then 1 else 0) + risingEdges r rs

/-- A quaternion value (w, x, y, z), as stored in `qRotation`. -/
structure Quat where
  w : ℝ
  x : ℝ
  y : ℝ
  z : ℝ

/-- Squared norm of a quaternion. -/
def Quat.normSq (q : Quat) : ℝ :=
  q.w ^ 2 + q.x ^ 2 + q.y ^ 2 + q.z ^ 2

/-- Head orientation synthesis, driver.cpp lines 413-426: half-angle
cosines/sines `t0..t5` of `head_yaw`, `head_roll`, `head_pitch` composed
into `qRotation`. -/
noncomputable def headQuat (head_yaw head_roll head_pitch : ℝ) : Quat :=
  let t0 := Real.cos (head_yaw * 0.5)
  let t1 := Real.sin (head_yaw * 0.5)
  let t2 := Real.cos (head_roll * 0.5)
  let t3 := Real.sin (head_roll * 0.5)
  let t4 := Real.cos (head_pitch * 0.5)
  let t5 := Real.sin (head_pitch * 0.5)
  { w := t0 * t2 * t4 + t1 * t3 * t5
    x := t0 * t3 * t4 - t1 * t2 * t5
    y := t0 * t2 * t5 + t1 * t3 * t4
    z := t1 * t2 * t4 - t0 * t3 * t5 }

/-- Hand-controller orientation synthesis, driver.cpp lines 627-640:
half-angle cosines/sines of `controller_roll`, `controller_pitch`,
`controller_yaw` composed into `qRotation`. -/
noncomputable def ctrlQuat (controller_roll controller_pitch controller_yaw :
    ℝ) : Quat :=
  let cR := Real.cos (controller_roll * 0.5)
  let sR := Real.sin (controller_roll * 0.5)
  let cP := Real.cos (controller_pitch * 0.5)
  let sP := Real.sin (controller_pitch * 0.5)
  let cY := Real.cos (controller_yaw * 0.5)
  let sY := Real.sin (controller_yaw * 0.5)
  { w := cR * cP * cY + sR * sP * sY
    x := sR * cP * cY - cR * sP * sY
    y := cR * sP * cY + sR * cP * sY
    z := -sR * sP * cY + cR * cP * sY }

/-- Hand-controller position emission, driver.cpp lines 614-621: the
calibrated offset (with the per-hand lateral spacing
`0.2 * (1 - 2 * controllerIndex)` and the fixed `-0.3` drops on y and z)
rotated into the head's yaw-only frame and translated by the head
position. -/
noncomputable def ctrlPosition (controllerIndex : ℝ) (rawPos corr :
    ℝ × ℝ × ℝ) (head_front hx hy hz : ℝ) : ℝ × ℝ × ℝ :=
  let x := rawPos.1 - corr.1 + 0.2 * (1 - 2 * controllerIndex)
  let y := rawPos.2.1 - corr.2.1 - 0.3
  let z := rawPos.2.2 - corr.2.2 - 0.3
  (x * Real.cos head_front + z * Real.sin head_front + hx,
   y + hy,
   z * Real.cos head_front - x * Real.sin head_front + hz)

/-- Hand-controller position as the claim words it: raw position minus
the correction offset, shifted laterally by `+0.2` (index 0) or `-0.2`
(index 1), rotated into the head's yaw-only frame and translated by the
head position — with no other offsets. -/
noncomputable def ctrlPositionClaim (controllerIndex : ℝ) (rawPos corr :
    ℝ × ℝ × ℝ) (head_front hx hy hz : ℝ) : ℝ × ℝ × ℝ :=
  let x := rawPos.1 - corr.1 + 0.2 * (1 - 2 * controllerIndex)
  let y := rawPos.2.1 - corr.2.1
  let z := rawPos.2.2 - corr.2.2
  (x * Real.cos head_front + z * Real.sin head_front + hx,
   y + hy,
   z * Real.cos head_front - x * Real.sin head_front + hz)

/-- A controller object as `CServerDriver_ForDesktop::Init` sees it: the
index set by `setIndex` and the head pointer set by `setHead`, both of
which have no initializer in the source (modelled as `none`). -/
structure CtrlObj where
  controllerIndex : Option ℤ
  head : Option Unit

/-- A freshly constructed `CForDesktopControllerDriver`: neither
`controllerIndex` nor `head` is assigned by the constructor
(driver.cpp lines 470-477). -/
def ctrlObjNew : CtrlObj :=
  { controllerIndex := none, head := none }

/-- Calling `setHead` through a possibly-null controller pointer: when
the pointer is null the call is a null-pointer dereference (recorded as
`true` in the second component) and no object is updated. -/
def setHeadThroughPtr (p : Option CtrlObj) : Option CtrlObj × Bool :=
  match p with
  | none => (none, true)
  | some c => (some { c with head := some () }, false)

/-- Result of `CServerDriver_ForDesktop::Init`: the two controller
pointers and the list of null-pointer-dereference faults incurred, in
order. -/
structure InitResult where
  controller_r : Option CtrlObj
  controller_l : Option CtrlObj
  faults : List Bool

/-- Method `CServerDriver_ForDesktop::Init`, driver.cpp lines 768-793, restricted
to the controller wiring: `m_pController_r = new ...; setIndex(0)` (lines
778-779), then `m_pController_l->setHead(m_pNullHmdLatest)` (line 780,
while `m_pController_l` still holds its member initializer `nullptr` from
line 761), then `m_pController_l = new ...; setIndex(1); setHead(...)`
(lines 785-787).  No `setHead` call ever targets `m_pController_r`. -/
def serverInit : InitResult :=
  let pl0 : Option CtrlObj := none
  let pr := some { ctrlObjNew with controllerIndex := some 0 }
  let (_, fault780) := setHeadThroughPtr pl0
  let pl1 := some { ctrlObjNew with controllerIndex := some 1 }
  let (pl2, fault787) := setHeadThroughPtr pl1
  { controller_r := pr, controller_l := pl2
    faults := (if fault780 then [true] else []) ++
      (if fault787 then [true] else []) }

/-- The head-front read at driver.cpp line 602
(`double head_front = head->frontDire`), through a controller's `head`
pointer: dereferencing an unassigned pointer yields no value. -/
def readHeadFront (c : CtrlObj) (frontDire : ℝ) : Option ℝ :=
  c.head.map (fun _ => frontDire)

/-- Left curly brace, the first byte of a JSON record on the wire. -/
def lbrace : Char := Char.ofNat 123

/-- Right curly brace. -/
def rbrace : Char := Char.ofNat 125

/-- Concrete telemetry frame used in scenarios: the decoded value of
`{"id":0,"rotation":[10,0,0]}`. -/
def frameR0 : JValue :=
  JValue.jobj [(keyId, JValue.jnum 0),
    (keyRotation, JValue.jarr [JValue.jnum 10, JValue.jnum 0, JValue.jnum 0])]

/-- Concrete telemetry frame with an unknown device id: the decoded
value of `{"id":5,"rotation":[7,8,9]}`. -/
def frameUnknownId : JValue :=
  JValue.jobj [(keyId, JValue.jnum 5),
    (keyRotation, JValue.jarr [JValue.jnum 7, JValue.jnum 8, JValue.jnum 9])]

/-! Helper lemmas. -/

theorem takeWhile_append_all {p : Char → Bool} {l1 l2 : List Char}
    (h : ∀ a ∈ l1, p a = true) :
    (l1 ++ l2).takeWhile p = l1 ++ l2.takeWhile p := by
  induction l1 with
  | nil => simp
  | cons c cs ih =>
    have hc : p c = true := h c (by simp)
    simp only [List.cons_append, List.takeWhile_cons, hc, if_true]
    rw [ih (fun a ha => h a (by simp [ha]))]

theorem ctrunc_eq_zero {x : ℝ} (h1 : -1 < x) (h2 : x < 1) : ctrunc x = 0 := by
  unfold ctrunc
  split_ifs with h
  · exact Int.floor_eq_zero_iff.mpr ⟨h, h2⟩
  · refine Int.ceil_eq_zero_iff.mpr ⟨h1, le_of_lt ?_⟩
    exact lt_of_not_ge h

theorem cfmod_small {d : ℝ} (h1 : -90 < d) (h2 : d < 90) : cfmod d 90 = d := by
  have h90 : (0 : ℝ) < 90 := by norm_num
  have ha : d / 90 < 1 := (div_lt_one h90).mpr h2
  have hb : -1 < d / 90 := by
    rw [lt_div_iff₀ h90]
    linarith
  unfold cfmod
  rw [ctrunc_eq_zero hb ha]
  push_cast
  ring

theorem headMouseUpd_head_yaw (inp : FrameInputs) (s : HeadState) :
    (headMouseUpd inp s).head_yaw = s.head_yaw := by
  unfold headMouseUpd
  split_ifs <;> rfl

theorem headMoveUpd_head_yaw (inp : FrameInputs) (s : HeadState) :
    (headMoveUpd inp s).head_yaw = s.head_yaw := by
  unfold headMoveUpd
  split_ifs <;> rfl

theorem headVertUpd_head_yaw (inp : FrameInputs) (s : HeadState) :
    (headVertUpd inp s).head_yaw = s.head_yaw := by
  unfold headVertUpd
  split_ifs <;> rfl

theorem headHomeUpd_head_yaw (inp : FrameInputs) (s : HeadState) :
    (headHomeUpd inp s).head_yaw = s.head_yaw := by
  unfold headHomeUpd
  split_ifs <;> rfl

theorem headGetPoseStep_head_yaw (inp : FrameInputs) (s : HeadState) :
    (headGetPoseStep inp s).head_yaw =
      if inp.endKey then 0 else s.head_yaw := by
  unfold headGetPoseStep
  rw [headHomeUpd_head_yaw, headVertUpd_head_yaw, headMoveUpd_head_yaw]
  unfold headEndUpd
  split_ifs <;> simp [headMouseUpd_head_yaw]

theorem headGetPoseStep_quiet (s : HeadState) :
    headGetPoseStep quietInputs s = s := by
  simp [headGetPoseStep, headHomeUpd, headVertUpd, headMoveUpd, headEndUpd,
    headMouseUpd, quietInputs]

theorem ctrlGetPoseStep_quiet (f : ℝ) (c : CtrlState) :
    ctrlGetPoseStep quietInputs f c =
      { c with controller_roll := c.controller_roll + c.rotDiffValues.1
               controller_pitch := c.controller_pitch + c.rotDiffValues.2.1
               controller_yaw := c.controller_yaw + c.rotDiffValues.2.2 } := by
  simp [ctrlGetPoseStep, quietInputs]

/-- C2: during `CServerDriver_ForDesktop::Init`, `setHead` is invoked
through the left-controller pointer while that pointer is still null
(exactly one null-dereference fault, at the line-780 call), no `setHead`
ever targets the right controller, so after Init the right controller's
`head` reference is unassigned and the right hand's `GetPose` read of the
head's front direction dereferences an unassigned reference (yields no
value). -/
theorem c2_init_sethead_null_confirmed :
    serverInit.faults = [true] ∧
    serverInit.controller_r = some { controllerIndex := some 0, head := none } ∧
    serverInit.controller_l =
      some { controllerIndex := some 1, head := some () } ∧
    ∀ f : ℝ,
      serverInit.controller_r.map (fun c => readHeadFront c f) = some none :=
  ⟨rfl, rfl, rfl, fun _ => rfl⟩

/-- C6: when the channel payload is malformed JSON, the frame is
dropped: the server state is unchanged by the ingestion, the parser
diagnostic is surfaced as the `json error` log line, and a full frame
tick with the malformed payload leaves every device's state exactly as
a tick with no payload at all. -/
theorem c6_malformed_drop_confirmed (e : String) (inp : FrameInputs)
    (s : ServerState) :
    (serverIngest (some (.error e)) s).1 = s ∧
    (serverIngest (some (.error e)) s).2 = [jsonErrorLog e] ∧
    (serverRunFrameTick (some (.error e)) inp s).1 =
      (serverRunFrameTick none inp s).1 :=
  ⟨rfl, rfl, rfl⟩

/-- C7: for every value of the yaw, pitch and roll accumulators, both the
head's quaternion composition and the hand controllers' quaternion
composition have unit norm, exactly, in real arithmetic, with no
renormalization. -/
theorem c7_unit_norm_confirmed (roll pitch yaw : ℝ) :
    (headQuat yaw roll pitch).normSq = 1 ∧
      (ctrlQuat roll pitch yaw).normSq = 1 := by
  constructor
  · simp only [headQuat, Quat.normSq]
    have h0 := Real.sin_sq_add_cos_sq (yaw * 0.5)
    have h2 := Real.sin_sq_add_cos_sq (roll * 0.5)
    have h4 := Real.sin_sq_add_cos_sq (pitch * 0.5)
    linear_combination
      ((Real.sin (roll * 0.5)) ^ 2 + (Real.cos (roll * 0.5)) ^ 2) *
          ((Real.sin (pitch * 0.5)) ^ 2 + (Real.cos (pitch * 0.5)) ^ 2) * h0 +
        ((Real.sin (pitch * 0.5)) ^ 2 + (Real.cos (pitch * 0.5)) ^ 2) * h2 + h4
  · simp only [ctrlQuat, Quat.normSq]
    have hR := Real.sin_sq_add_cos_sq (roll * 0.5)
    have hP := Real.sin_sq_add_cos_sq (pitch * 0.5)
    have hY := Real.sin_sq_add_cos_sq (yaw * 0.5)
    linear_combination
      ((Real.sin (pitch * 0.5)) ^ 2 + (Real.cos (pitch * 0.5)) ^ 2) *
          ((Real.sin (yaw * 0.5)) ^ 2 + (Real.cos (yaw * 0.5)) ^ 2) * hR +
        ((Real.sin (yaw * 0.5)) ^ 2 + (Real.cos (yaw * 0.5)) ^ 2) * hP + hY

/-- C9: the edge-triggered input latch flips its toggled state exactly
once per rising edge of the raw signal: across any poll sequence, the
final toggled state differs from the initial one exactly when the number
of rising edges in the sequence is odd (so held-active polls and inactive
polls never toggle, and each fresh rising edge toggles exactly once). -/
theorem c9_latch_confirmed (s : Latch) (polls : List Bool) :
    (latchRun s polls).locked =
      (s.locked ^^ decide (risingEdges s.continuing polls % 2 = 1)) := by
  induction polls generalizing s with
  | nil => simp [latchRun, risingEdges]
  | cons r rs ih =>
    have h := ih (latchUpdate s r)
    simp only [latchRun, List.foldl] at h ⊢
    rw [h]
    simp only [latchUpdate, risingEdges]
    by_cases hr : (r && !s.continuing) = true
    · rcases Nat.mod_two_eq_zero_or_one (risingEdges r rs) with h2 | h2
      · have e1 : (1 + risingEdges r rs) % 2 = 1 := by omega
        have e2 : ¬risingEdges r rs % 2 = 1 := by omega
        simp [hr, e1, e2]
      · have e1 : ¬(1 + risingEdges r rs) % 2 = 1 := by omega
        simp [hr, e1, h2]
    · simp [hr]

/-- C10: the head's yaw accumulator is invariantly zero in every
reachable head state: it starts at 0 and the only write to it stores 0,
so its half-angle terms satisfy `cos = 1` and `sin = 0` and the emitted
head quaternion equals the one with yaw 0. -/
theorem c10_head_yaw_zero_confirmed (s : HeadState) (h : HeadReachable s) :
    s.head_yaw = 0 ∧ Real.cos (s.head_yaw * 0.5) = 1 ∧
      Real.sin (s.head_yaw * 0.5) = 0 ∧
      ∀ r p : ℝ, headQuat s.head_yaw r p = headQuat 0 r p := by
  have hy : s.head_yaw = 0 := by
    induction h with
    | init x0 y0 z0 f0 => rfl
    | step inp s hs ih =>
      rw [headGetPoseStep_head_yaw]
      split_ifs with he
      · rfl
      · exact ih
  refine ⟨hy, ?_, ?_, fun r p => by rw [hy]⟩
  · rw [hy]
    simp
  · rw [hy]
    simp

/-- Witness for C10: the initial head state is reachable and its yaw
accumulator is zero. -/
theorem c10_head_yaw_zero_witness :
    HeadReachable (headStateInit 0 0 0 0) ∧
      (headStateInit 0 0 0 0).head_yaw = 0 :=
  ⟨HeadReachable.init 0 0 0 0,
    (c10_head_yaw_zero_confirmed _ (HeadReachable.init 0 0 0 0)).1⟩

/-- C4 counterexample: at previous = 85 and current = 5 the code's delta
is `fmod(-80, 90) / 360 = -80 / 360`, not the claimed non-negative
`10 / 360`. -/
theorem c4_fmod_counterexample :
    rotDelta 5 85 = -80 / 360 ∧ (-80 / 360 : ℝ) ≠ 10 / 360 := by
  constructor
  · unfold rotDelta
    rw [show (5 : ℝ) - 85 = -80 by norm_num,
      cfmod_small (by norm_num) (by norm_num)]
  · norm_num

/-- C4 amended: the per-axis delta is `fmod(current - previous, 90) / 360`
with C `fmod`, whose result carries the sign of the dividend; whenever the
difference lies strictly between -90 and 90 no wrap occurs and the delta
is `(current - previous) / 360`, and in particular for previous = 85,
current = 5 the delta is `-80 / 360`, a negative value. -/
theorem c4_fmod_amended (current previous : ℝ)
    (h1 : -90 < current - previous) (h2 : current - previous < 90) :
    rotDelta current previous = (current - previous) / 360 ∧
      rotDelta 5 85 = -80 / 360 := by
  constructor
  · unfold rotDelta
    rw [cfmod_small h1 h2]
  · unfold rotDelta
    rw [show (5 : ℝ) - 85 = -80 by norm_num,
      cfmod_small (by norm_num) (by norm_num)]

/-- Witness for C4 amended, at current = 5, previous = 85. -/
theorem c4_fmod_amended_witness :
    (-90 < (5 : ℝ) - 85 ∧ (5 : ℝ) - 85 < 90) ∧
      (rotDelta 5 85 = ((5 : ℝ) - 85) / 360 ∧ rotDelta 5 85 = -80 / 360) :=
  ⟨⟨by norm_num, by norm_num⟩,
    c4_fmod_amended 5 85 (by norm_num) (by norm_num)⟩

/-- C8 counterexample: with zero raw position, zero correction, index 0,
zero head front and head at the origin, the code emits y = -0.3 while the
claimed formula (raw minus correction, lateral shift, rotation,
translation only) emits y = 0: the fixed -0.3 offsets on y and z are
missing from the claim. -/
theorem c8_position_counterexample :
    (ctrlPosition 0 (0, 0, 0) (0, 0, 0) 0 0 0 0).2.1 = -(0.3 : ℝ) ∧
      (ctrlPositionClaim 0 (0, 0, 0) (0, 0, 0) 0 0 0 0).2.1 = 0 ∧
      ctrlPosition 0 (0, 0, 0) (0, 0, 0) 0 0 0 0 ≠
        ctrlPositionClaim 0 (0, 0, 0) (0, 0, 0) 0 0 0 0 := by
  refine ⟨?_, ?_, ?_⟩
  · simp [ctrlPosition]
  · simp [ctrlPositionClaim]
  · intro hcontra
    have h21 := congrArg (fun t : ℝ × ℝ × ℝ => t.2.1) hcontra
    simp [ctrlPosition, ctrlPositionClaim] at h21
    norm_num at h21

/-- C8 amended: the emitted hand position equals the claimed composition
(raw minus correction, lateral shift of `0.2 * (1 - 2 * index)`, yaw-only
rotation by the head front, translation by the head position) once the
correction offset is augmented by the fixed 0.3 drops on the y and z
axes. -/
theorem c8_position_amended (i : ℝ) (rawPos corr : ℝ × ℝ × ℝ)
    (hf hx hy hz : ℝ) :
    ctrlPosition i rawPos corr hf hx hy hz =
      ctrlPositionClaim i rawPos (corr.1, corr.2.1 + 0.3, corr.2.2 + 0.3)
        hf hx hy hz := by
  simp only [ctrlPosition, ctrlPositionClaim, Prod.mk.injEq]
  refine ⟨by ring, by ring, by ring⟩

/-- C1 counterexample: the consumer's take treats a buffer whose byte 0
is `'x'` as having no data (the claim says `'x'` means data present), a
buffer holding a JSON record starting at byte 0 as having data, and it
parses the payload starting at offset 0, not offset 1 as claimed. -/
theorem c1_flag_polarity_counterexample :
    shramHasData ['x', lbrace, rbrace, nulChar] = false ∧
      shramHasData [lbrace, rbrace, nulChar] = true ∧
      payloadCString [lbrace, rbrace, nulChar] = [lbrace, rbrace] ∧
      payloadCString [lbrace, rbrace, nulChar] ≠
        payloadCStringClaim [lbrace, rbrace, nulChar] := by
  decide

/-- C1 amended: `'x'` at offset 0 marks the EMPTY (drained) channel; a
published record occupies bytes 0 onward as a NUL-terminated string whose
first byte differs from `'x'`.  The consumer's non-blocking take then
sees data, parses the payload starting at offset 0, and marks the channel
drained by writing NUL at offset 1 and `'x'` at offset 0, after which the
consumer sees no data and the producer may write again (and not
before). -/
theorem c1_flag_protocol_amended (payload : List Char)
    (h1 : payload.head? ≠ some 'x') (h2 : nulChar ∉ payload)
    (h3 : payload ≠ []) :
    shramHasData (payload ++ [nulChar]) = true ∧
      payloadCString (payload ++ [nulChar]) = payload ∧
      producerMayWrite (payload ++ [nulChar]) = false ∧
      shramHasData (markDrained (payload ++ [nulChar])) = false ∧
      producerMayWrite (markDrained (payload ++ [nulChar])) = true := by
  obtain ⟨c, cs, rfl⟩ : ∃ c cs, payload = c :: cs := by
    cases payload with
    | nil => exact absurd rfl h3
    | cons c cs => exact ⟨c, cs, rfl⟩
  have hc : c ≠ 'x' := by
    intro h
    exact h1 (by simp [h])
  refine ⟨?_, ?_, ?_, ?_, ?_⟩
  · simp [shramHasData, hc]
  · unfold payloadCString
    rw [takeWhile_append_all]
    · simp [nulChar]
    · intro a ha
      have hne : a ≠ nulChar := fun h => h2 (h ▸ ha)
      simp [hne]
  · simp [producerMayWrite, hc]
  · simp [markDrained, shramHasData]
  · simp [markDrained, producerMayWrite]

/-- Witness for C1 amended, with the two-byte record `{}`. -/
theorem c1_flag_protocol_amended_witness :
    (([lbrace, rbrace] : List Char).head? ≠ some 'x' ∧
        nulChar ∉ ([lbrace, rbrace] : List Char) ∧
        ([lbrace, rbrace] : List Char) ≠ []) ∧
      (shramHasData ([lbrace, rbrace] ++ [nulChar]) = true ∧
        payloadCString ([lbrace, rbrace] ++ [nulChar]) = [lbrace, rbrace] ∧
        producerMayWrite ([lbrace, rbrace] ++ [nulChar]) = false ∧
        shramHasData (markDrained ([lbrace, rbrace] ++ [nulChar])) = false ∧
        producerMayWrite (markDrained ([lbrace, rbrace] ++ [nulChar])) =
          true) :=
  ⟨⟨by decide, by decide, by decide⟩,
    c1_flag_protocol_amended [lbrace, rbrace] (by decide) (by decide)
      (by decide)⟩

/-- C5 counterexample: a well-formed frame with the unknown device id 5
and rotation [7,8,9] overwrites the stored previous rotation sample
(shared by both devices) even though it is addressed to no device, while
both controllers are left unchanged — the claim says such a frame leaves
the stored previous sample untouched. -/
theorem c5_shared_prev_counterexample :
    (serverDecodeStep frameUnknownId serverStateInit).preControllerRot =
        (7, 8, 9) ∧
      ((7 : ℝ), (8 : ℝ), (9 : ℝ)) ≠ serverStateInit.preControllerRot ∧
      (serverDecodeStep frameUnknownId serverStateInit).ctrl_r =
        serverStateInit.ctrl_r ∧
      (serverDecodeStep frameUnknownId serverStateInit).ctrl_l =
        serverStateInit.ctrl_l := by
  have hid : GetDoubleValue 0 frameUnknownId keyId = 5 := rfl
  have hrot : GetDoubleArry3 (0, 0, 0) frameUnknownId keyRotation =
      (7, 8, 9) := rfl
  refine ⟨?_, ?_, ?_, ?_⟩
  · simp only [serverDecodeStep, hid, hrot]
    rw [if_neg (by norm_num), if_neg (by norm_num)]
  · simp only [serverStateInit, Prod.mk.injEq, ne_eq]
    norm_num
  · simp only [serverDecodeStep, hid]
    rw [if_neg (by norm_num), if_neg (by norm_num)]
  · simp only [serverDecodeStep, hid]
    rw [if_neg (by norm_num), if_neg (by norm_num)]

/-- C5 amended: the previous absolute rotation sample is a single array
shared by both devices; it is overwritten with the frame's rotation field
on every tick in which a well-formed frame arrives, regardless of the
frame's device id (unknown ids included), and left untouched exactly on
ticks with no well-formed frame (no data, or a parse failure). -/
theorem c5_shared_prev_amended (j : JValue) (s : ServerState) :
    (serverDecodeStep j s).preControllerRot =
        GetDoubleArry3 (0, 0, 0) j keyRotation ∧
      (serverIngest none s).1.preControllerRot = s.preControllerRot ∧
      ∀ e, (serverIngest (some (.error e)) s).1.preControllerRot =
        s.preControllerRot := by
  refine ⟨?_, rfl, fun _ => rfl⟩
  simp only [serverDecodeStep]
  split_ifs <;> rfl

/-- C3 failing input: deliver the frame `{"id":0,"rotation":[10,0,0]}`
on one tick (the right hand's roll accumulator becomes 10/360 = 1/36),
then run a tick with no telemetry at all: the stored delta is not
cleared, `GetPose` re-applies it, and the roll accumulator moves again to
1/18 — the tick with no telemetry perturbs the accumulator, contradicting
the claim that the delta is exactly zero on such a tick. -/
theorem c3_stale_delta_failing_input :
    ((serverRunFrameTick (some (.ok frameR0)) quietInputs
        serverStateInit).1.ctrl_r.controller_roll = 1 / 36) ∧
      ((serverRunFrameTick none quietInputs
          (serverRunFrameTick (some (.ok frameR0)) quietInputs
            serverStateInit).1).1.ctrl_r.controller_roll = 1 / 18) ∧
      (1 / 18 : ℝ) ≠ 1 / 36 := by
  have hd10 : rotDelta 10 0 = 1 / 36 := by
    unfold rotDelta
    rw [show (10 : ℝ) - 0 = 10 by norm_num,
      cfmod_small (by norm_num) (by norm_num)]
    norm_num
  have hd0 : rotDelta 0 0 = 0 := by
    unfold rotDelta
    rw [show (0 : ℝ) - 0 = 0 by norm_num,
      cfmod_small (by norm_num) (by norm_num)]
    norm_num
  have hid : GetDoubleValue 0 frameR0 keyId = 0 := rfl
  have hrot : GetDoubleArry3 (0, 0, 0) frameR0 keyRotation = (10, 0, 0) := rfl
  have hdec : serverDecodeStep frameR0 serverStateInit =
      { head := headStateInit 0 0 0 0
        ctrl_r :=
          { controller_roll := 0, controller_pitch := 0, controller_yaw := 0
            posCorrectionValues := (0, 0, 0), rawPosValues := (0, 0, 0)
            rotDiffValues := (1 / 36, 0, 0), trackpadValues := (0, 0)
            trackpadClicked := false, triggerValue := 0 }
        ctrl_l := ctrlStateInit
        preControllerRot := (10, 0, 0) } := by
    simp only [serverDecodeStep, hid, hrot, serverStateInit]
    rw [if_true]
    simp only [setInputValues, setRotDiffNone, ctrlStateInit, hd10, hd0]
    rfl
  have h1r : (serverRunFrameTick (some (.ok frameR0)) quietInputs
      serverStateInit).1.ctrl_r =
      ctrlGetPoseStep quietInputs
        (headGetPoseStep quietInputs
          (serverDecodeStep frameR0 serverStateInit).head).frontDire
        (serverDecodeStep frameR0 serverStateInit).ctrl_r := rfl
  have hcr1 : (serverRunFrameTick (some (.ok frameR0)) quietInputs
      serverStateInit).1.ctrl_r =
      { controller_roll := 0 + 1 / 36, controller_pitch := 0 + 0
        controller_yaw := 0 + 0, posCorrectionValues := (0, 0, 0)
        rawPosValues := (0, 0, 0), rotDiffValues := (1 / 36, 0, 0)
        trackpadValues := (0, 0), trackpadClicked := false
        triggerValue := 0 } := by
    rw [h1r, hdec, headGetPoseStep_quiet, ctrlGetPoseStep_quiet]
  have hhead1 : (serverRunFrameTick (some (.ok frameR0)) quietInputs
      serverStateInit).1.head = headStateInit 0 0 0 0 := by
    have hh : (serverRunFrameTick (some (.ok frameR0)) quietInputs
        serverStateInit).1.head =
        headGetPoseStep quietInputs
          (serverDecodeStep frameR0 serverStateInit).head := rfl
    rw [hh, hdec, headGetPoseStep_quiet]
  refine ⟨?_, ?_, by norm_num⟩
  · rw [hcr1]
    norm_num
  · have h2 : (serverRunFrameTick none quietInputs
        (serverRunFrameTick (some (.ok frameR0)) quietInputs
          serverStateInit).1).1.ctrl_r =
        ctrlGetPoseStep quietInputs
          (headGetPoseStep quietInputs
            ((serverRunFrameTick (some (.ok frameR0)) quietInputs
              serverStateInit).1).head).frontDire
          ((serverRunFrameTick (some (.ok frameR0)) quietInputs
            serverStateInit).1).ctrl_r := rfl
    rw [h2, hhead1, headGetPoseStep_quiet, hcr1, ctrlGetPoseStep_quiet]
    norm_num

end VRDesktop
